import Mathlib

/-!
Shallow embedding of the wealth projection engine of
`src/services/WealthProjectionService.ts`, together with proofs of the
specification claims about it.

Conventions of the embedding:

* JavaScript numbers are modelled as exact rationals (`ℚ`).  Where the source
  can produce non-finite values (division by zero, `Math.pow` on an infinite
  base) the computation is carried out in `JsNum`, rationals extended with
  `inf`, `ninf` and `nan`, with the IEEE-754 propagation rules that
  JavaScript arithmetic follows.  The one operation that genuinely leaves the
  rationals — `Math.pow` with a finite positive base and a non-integer
  exponent — is kept abstract as a parameter `fpow`; no claim depends on its
  value.
* JavaScript `Date` values are modelled at day granularity as
  `(year, month, day)` triples ordered lexicographically (`month` is the
  0-based month index that `Date.prototype.getMonth` returns); time-of-day
  and time zones are idealised away.  The dates the simulator itself builds
  (`new Date(targetYear, month, 1)`) always have day 1.
* The ambient clock read `new Date().getFullYear()` is passed explicitly as
  the `currentYear` argument, as the specification's design notes direct for
  a deterministic reimplementation.
* `Math.round x` is `⌊x + 1/2⌋` on finite values, which is the JavaScript
  (round-half-toward-positive-infinity) behaviour.
-/

set_option maxRecDepth 100000

/-- Event kinds, `src/types` `EventType`: a fixed closed set. -/
inductive EventType where
  | INCOME | EXPENSE | INVESTMENT | WITHDRAWAL | BONUS | INHERITANCE | LOAN
deriving DecidableEq, BEq, Repr

/-- Recurrence rules, `src/types` `EventFrequency`. -/
inductive Frequency where
  | ONCE | MONTHLY | QUARTERLY | ANNUALLY
deriving DecidableEq, BEq, Repr

/-- A calendar date at day granularity: `year`/`getFullYear()`,
`month`/`getMonth()` (0-based) and `day`/`getDate()`. -/
structure SimDate where
  year : ℤ
  month : ℤ
  day : ℤ
deriving DecidableEq, Repr

/-- Chronological strict order on dates (the order `<`/`>` of JavaScript
`Date` objects, at day granularity). -/
def dateLt (a b : SimDate) : Bool :=
  decide (a.year < b.year ∨
    (a.year = b.year ∧ (a.month < b.month ∨
      (a.month = b.month ∧ a.day < b.day))))

/-- A cash-flow event (the fields of the persisted `Event` used by the
engine; `value` is the magnitude `Number(event.value)`). -/
structure SimEvent where
  etype : EventType
  value : ℚ
  frequency : Frequency
  startDate : SimDate
  endDate : Option SimDate
deriving DecidableEq, Repr

/-- `WealthProjectionService.getMonthsDifference` (lines 99-103):
`(target.getFullYear() - start.getFullYear()) * 12 +
 (target.getMonth() - start.getMonth())`. -/
def getMonthsDifference (startDate targetDate : SimDate) : ℤ :=
  (targetDate.year - startDate.year) * 12 + (targetDate.month - startDate.month)

/-- The two `continue` guards at lines 63-64: `startDate > targetDate` and
`endDate && endDate < targetDate` both reject. -/
def withinBounds (e : SimEvent) (targetDate : SimDate) : Bool :=
  !(dateLt targetDate e.startDate) &&
    (match e.endDate with
     | some d => !(dateLt d targetDate)
     | none => true)

/-- The per-event body of `getEventsForMonth` (lines 59-91): the bound
guards followed by the `switch (event.frequency)` dispatch.  `%` on a
non-negative dividend is JavaScript's remainder, i.e. `Int.tmod`. -/
def eventApplies (e : SimEvent) (targetDate : SimDate) : Bool :=
  withinBounds e targetDate &&
    (match e.frequency with
     | .ONCE =>
         decide (e.startDate.year = targetDate.year ∧
           e.startDate.month = targetDate.month)
     | .MONTHLY => true
     | .QUARTERLY =>
         decide ((getMonthsDifference e.startDate targetDate).tmod 3 = 0)
     | .ANNUALLY => decide (e.startDate.month = targetDate.month))

/-- `WealthProjectionService.getEventsForMonth` (lines 56-94): the events
applicable in the month of `targetDate`, in caller-supplied order. -/
def getEventsForMonth (events : List SimEvent) (targetDate : SimDate) :
    List SimEvent :=
  events.filter (fun e => eventApplies e targetDate)

/-- One event application (lines 30-39): kinds INCOME/BONUS/INHERITANCE/
INVESTMENT add the value, kinds EXPENSE/WITHDRAWAL/LOAN subtract it. -/
def applyEvent (v : ℚ) (e : SimEvent) : ℚ :=
  if [EventType.INCOME, .BONUS, .INHERITANCE, .INVESTMENT].contains e.etype then
    v + e.value
  else if [EventType.EXPENSE, .WITHDRAWAL, .LOAN].contains e.etype then
    v - e.value
  else v

/-- A yearly sample of the simulated curve. -/
structure ProjectionPoint where
  year : ℤ
  projectedValue : ℚ
deriving DecidableEq, Repr

/-- `Math.round(q * 100) / 100` — rounding to 2 decimal places; JavaScript
`Math.round x = ⌊x + 1/2⌋`. -/
def round2 (q : ℚ) : ℚ :=
  ((⌊q * 100 + 1 / 2⌋ : ℤ) : ℚ) / 100

/-- The body of the inner month loop (lines 24-42): growth by the monthly
rate, then every applicable event, then the zero-floor clamp. -/
def stepMonth (events : List SimEvent) (monthlyRate : ℚ) (targetYear : ℤ)
    (month : ℤ) (v : ℚ) : ℚ :=
  let grown := v * (1 + monthlyRate)
  let applied :=
    (getEventsForMonth events ⟨targetYear, month, 1⟩).foldl applyEvent grown
  max 0 applied

/-- Folding `stepMonth` over a list of month indices. -/
def runMonths (events : List SimEvent) (monthlyRate : ℚ) (targetYear : ℤ)
    (months : List ℤ) (v : ℚ) : ℚ :=
  months.foldl (fun acc m => stepMonth events monthlyRate targetYear m acc) v

/-- The month indices `for (let month = 0; month < 12; month++)`. -/
def monthIdx : List ℤ :=
  [0, 1, 2, 3, 4, 5, 6, 7, 8, 9, 10, 11]

/-- One iteration of the outer year loop before the push: the 12 monthly
steps of `targetYear`. -/
def simYear (events : List SimEvent) (monthlyRate : ℚ) (targetYear : ℤ)
    (v : ℚ) : ℚ :=
  runMonths events monthlyRate targetYear monthIdx v

/-- The outer loop `for (let year = 0; year <= projectionYears; year++)`
(lines 21-48), unrolled over the number of remaining iterations: each
iteration first simulates the 12 months of its target year and then pushes
`{ year: targetYear, projectedValue: round2 value }`. -/
def simulateFrom (events : List SimEvent) (monthlyRate : ℚ) (startYear : ℤ) :
    ℕ → ℚ → List ProjectionPoint
  | 0, _ => []
  | n + 1, v =>
      let v2 := simYear events monthlyRate startYear v
      ⟨startYear, round2 v2⟩ :: simulateFrom events monthlyRate (startYear + 1) n v2

/-- Projection parameters; `projectionYears` is an integer `≥ 0` per the
specified caller contract, modelled as `ℕ`. -/
structure WealthProjectionParams where
  initialValue : ℚ
  interestRate : ℚ
  events : List SimEvent
  projectionYears : ℕ
deriving Repr

/-- `WealthProjectionService.simulateWealthCurve` (lines 11-51) with the
ambient clock's `new Date().getFullYear()` passed as `currentYear`.
`monthlyRate = interestRate / 12` is the simple division of line 17. -/
def simulateWealthCurve (params : WealthProjectionParams) (currentYear : ℤ) :
    List ProjectionPoint :=
  simulateFrom params.events (params.interestRate / 12) currentYear
    (params.projectionYears + 1) params.initialValue

/-- The `projectedValue` of the last point of a curve (0 on an empty
curve); `projectionData[projectionData.length - 1].projectedValue`. -/
def finalProjected (l : List ProjectionPoint) : ℚ :=
  match l.getLast? with
  | some p => p.projectedValue
  | none => 0

/-- The running value after simulating `n` successive years starting at
calendar year `y` (the value the outer loop holds, before rounding). -/
def valueAfterYears (events : List SimEvent) (monthlyRate : ℚ) (y : ℤ) :
    ℕ → ℚ → ℚ
  | 0, v => v
  | n + 1, v =>
      valueAfterYears events monthlyRate (y + 1) n
        (simYear events monthlyRate y v)

/-! ### JavaScript numbers with non-finite values

The analytics functions can divide by zero and raise infinite bases to
powers, so they are embedded over `JsNum`: rationals extended with the three
non-finite IEEE-754 values, with JavaScript's propagation rules for the
operations the source performs. -/

/-- A JavaScript number: a finite (idealised exact) rational, `Infinity`,
`-Infinity` or `NaN`. -/
inductive JsNum where
  | fin : ℚ → JsNum
  | inf : JsNum
  | ninf : JsNum
  | nan : JsNum
deriving DecidableEq, Repr

/-- JavaScript unary minus. -/
def jneg : JsNum → JsNum
  | .fin q => .fin (-q)
  | .inf => .ninf
  | .ninf => .inf
  | .nan => .nan

/-- JavaScript `+`. -/
def jadd : JsNum → JsNum → JsNum
  | .fin a, .fin b => .fin (a + b)
  | .fin _, .inf => .inf
  | .fin _, .ninf => .ninf
  | .inf, .fin _ => .inf
  | .inf, .inf => .inf
  | .inf, .ninf => .nan
  | .ninf, .fin _ => .ninf
  | .ninf, .inf => .nan
  | .ninf, .ninf => .ninf
  | .nan, _ => .nan
  | _, .nan => .nan

/-- JavaScript `-`. -/
def jsub (a b : JsNum) : JsNum :=
  jadd a (jneg b)

/-- JavaScript `*`. -/
def jmul : JsNum → JsNum → JsNum
  | .fin a, .fin b => .fin (a * b)
  | .fin a, .inf => if 0 < a then .inf else if a < 0 then .ninf else .nan
  | .fin a, .ninf => if 0 < a then .ninf else if a < 0 then .inf else .nan
  | .inf, .fin b => if 0 < b then .inf else if b < 0 then .ninf else .nan
  | .ninf, .fin b => if 0 < b then .ninf else if b < 0 then .inf else .nan
  | .inf, .inf => .inf
  | .inf, .ninf => .ninf
  | .ninf, .inf => .ninf
  | .ninf, .ninf => .inf
  | .nan, _ => .nan
  | _, .nan => .nan

/-- JavaScript `/` (division of a positive finite number by `0` — i.e. the
positive zero our rationals model — yields `Infinity`). -/
def jdiv : JsNum → JsNum → JsNum
  | .fin a, .fin b =>
      if b = 0 then (if 0 < a then .inf else if a < 0 then .ninf else .nan)
      else .fin (a / b)
  | .fin _, .inf => .fin 0
  | .fin _, .ninf => .fin 0
  | .inf, .fin b => if 0 ≤ b then .inf else .ninf
  | .ninf, .fin b => if 0 ≤ b then .ninf else .inf
  | .inf, .inf => .nan
  | .inf, .ninf => .nan
  | .ninf, .inf => .nan
  | .ninf, .ninf => .nan
  | .nan, _ => .nan
  | _, .nan => .nan

/-- JavaScript `Math.round` on a `JsNum` (`⌊x + 1/2⌋` on finite values,
identity on infinities, `NaN` on `NaN`). -/
def jround : JsNum → JsNum
  | .fin q => .fin ((⌊q + 1 / 2⌋ : ℤ) : ℚ)
  | .inf => .inf
  | .ninf => .ninf
  | .nan => .nan

/-- JavaScript `>` (any comparison with `NaN` is false). -/
def jgt : JsNum → JsNum → Bool
  | .nan, _ => false
  | _, .nan => false
  | .fin a, .fin b => decide (b < a)
  | .fin _, .inf => false
  | .fin _, .ninf => true
  | .inf, .inf => false
  | .inf, _ => true
  | .ninf, _ => false

/-- JavaScript `Math.pow`.  The only genuinely transcendental case — a
finite positive base with a non-integer exponent — is delegated to the
abstract parameter `fpow`; every other case follows the IEEE-754 rules
JavaScript implements.  (Exponent `0` gives `1` even on `NaN`/infinite
bases; an infinite base with a positive exponent stays infinite; a finite
base with a non-negative integer exponent is exact.) -/
def jpow (fpow : ℚ → ℚ → JsNum) : JsNum → JsNum → JsNum
  | _, .nan => .nan
  | b, .fin e =>
      if e = 0 then .fin 1
      else
        match b with
        | .nan => .nan
        | .inf => if 0 < e then .inf else .fin 0
        | .ninf =>
            if 0 < e then
              (if e.den = 1 ∧ e.num.tmod 2 ≠ 0 then .ninf else .inf)
            else .fin 0
        | .fin a =>
            if e.den = 1 then
              (if 0 < e.num then .fin (a ^ e.num.toNat)
               else if a = 0 then .inf
               else .fin (a ^ e.num))
            else if a < 0 then .nan
            else if a = 0 then (if 0 < e then .fin 0 else .inf)
            else fpow a e
  | .fin a, .inf =>
      if 1 < a.den ∨ 1 < a.num.natAbs then .inf
      else if a = 1 ∨ a = -1 then .nan
      else .fin 0
  | .inf, .inf => .inf
  | .ninf, .inf => .inf
  | .nan, .inf => .nan
  | .fin a, .ninf =>
      if 1 < a.den ∨ 1 < a.num.natAbs then .fin 0
      else if a = 1 ∨ a = -1 then .nan
      else .inf
  | .inf, .ninf => .fin 0
  | .ninf, .ninf => .fin 0
  | .nan, .ninf => .nan

/-- A degenerate interpretation of the abstract fractional-power primitive,
used to instantiate theorems at concrete inputs (no claim depends on the
values `fpow` returns). -/
def nanPow : ℚ → ℚ → JsNum := fun _ _ => .nan

/-! ### Planning analytics -/

/-- Suggestion categories of `generateAutoSuggestions`. -/
inductive SuggestionType where
  | CONGRATULATIONS | INCREASE_CONTRIBUTION | ADJUST_ALLOCATION
deriving DecidableEq, Repr

/-- A generated suggestion.  The human-facing `description` string is
omitted as non-semantic; `suggestedValue`/`suggestedPeriod` are `none` where
the source writes `undefined`. -/
structure Suggestion where
  stype : SuggestionType
  suggestedValue : Option JsNum
  suggestedPeriod : Option ℚ
deriving DecidableEq, Repr

/-- `WealthProjectionService.generateAutoSuggestions` (lines 108-168).
`fpow` interprets `Math.pow` on a finite positive base with a non-integer
exponent (reachable only through the `shorterPeriod` factor when
`timeHorizonYears * 12 * 0.7` is not an integer). -/
def generateAutoSuggestions (fpow : ℚ → ℚ → JsNum)
    (currentPatrimony targetPatrimony timeHorizonYears
      currentMonthlyContribution : ℚ) : List Suggestion :=
  let gap : ℚ := targetPatrimony - currentPatrimony
  if gap ≤ 0 then
    [⟨.CONGRATULATIONS, some (.fin 0), some 0⟩]
  else
    let monthsRemaining : ℚ := timeHorizonYears * 12
    let monthlyRate : ℚ := (4 / 100) / 12
    let futureValueFactor : JsNum :=
      jdiv (jsub (jpow fpow (.fin (1 + monthlyRate)) (.fin monthsRemaining))
          (.fin 1))
        (.fin monthlyRate)
    let requiredMonthlyContribution := jdiv (.fin gap) futureValueFactor
    let additionalContribution :=
      jsub requiredMonthlyContribution (.fin currentMonthlyContribution)
    let contribSuggestions : List Suggestion :=
      if jgt additionalContribution (.fin 0) then
        let first : Suggestion :=
          ⟨.INCREASE_CONTRIBUTION, some (jround additionalContribution),
            some (timeHorizonYears * 12)⟩
        let shorterPeriod : ℚ := max 24 (timeHorizonYears * 12 * (7 / 10))
        let shorterMonthsFactor : JsNum :=
          jdiv (jsub (jpow fpow (.fin (1 + monthlyRate)) (.fin shorterPeriod))
              (.fin 1))
            (.fin monthlyRate)
        let higherContribution :=
          jsub (jdiv (.fin gap) shorterMonthsFactor)
            (.fin currentMonthlyContribution)
        if jgt higherContribution additionalContribution then
          [first,
            ⟨.INCREASE_CONTRIBUTION, some (jround higherContribution),
              some shorterPeriod⟩]
        else [first]
      else []
    let allocSuggestions : List Suggestion :=
      if jgt (jmul (jdiv (.fin gap) (.fin targetPatrimony)) (.fin 100))
          (.fin 50) then
        [⟨.ADJUST_ALLOCATION, none, none⟩]
      else []
    contribSuggestions ++ allocSuggestions

/-- The metrics record of `calculatePortfolioMetrics`; `cagr` is kept as a
`JsNum` because the source's expression can produce `Infinity`. -/
structure PortfolioMetrics where
  finalValue : ℚ
  totalGain : ℚ
  totalGainPercent : ℚ
  cagr : JsNum
  projectionYears : ℕ
deriving DecidableEq, Repr

/-- `WealthProjectionService.calculatePortfolioMetrics` (lines 173-192);
returns `none` on an empty curve.  CAGR is
`Math.pow(finalValue / initialValue, 1 / totalYears) - 1` when
`totalYears > 0`, else `0`, reported as
`Math.round(cagr * 10000) / 100`. -/
def calculatePortfolioMetrics (fpow : ℚ → ℚ → JsNum)
    (projectionData : List ProjectionPoint) (initialValue : ℚ) :
    Option PortfolioMetrics :=
  match projectionData with
  | [] => none
  | _ :: _ =>
      let finalValue : ℚ := finalProjected projectionData
      let totalYears : ℕ := projectionData.length - 1
      let cagr : JsNum :=
        if 0 < totalYears then
          jsub
            (jpow fpow (jdiv (.fin finalValue) (.fin initialValue))
              (.fin (1 / (totalYears : ℚ))))
            (.fin 1)
        else .fin 0
      let totalGain : ℚ := finalValue - initialValue
      let totalGainPercent : ℚ :=
        if 0 < initialValue then totalGain / initialValue * 100 else 0
      some
        { finalValue := round2 finalValue
          totalGain := round2 totalGain
          totalGainPercent := round2 totalGainPercent
          cagr := jdiv (jround (jmul cagr (.fin 10000))) (.fin 100)
          projectionYears := totalYears }

/-- The future-value-of-an-annuity factor the suggestion engine computes for
an integer number `n` of months at its fixed monthly rate `0.04 / 12`:
`((1 + 0.04/12)^n - 1) / (0.04/12)`. -/
def annuityFactor (n : ℕ) : ℚ :=
  ((1 + (4 / 100) / 12) ^ n - 1) / ((4 / 100) / 12)

/-! ### Structural lemmas about the simulator -/

theorem runMonths_nil (events : List SimEvent) (r : ℚ) (ty : ℤ) (v : ℚ) :
    runMonths events r ty [] v = v := rfl

theorem runMonths_cons (events : List SimEvent) (r : ℚ) (ty m : ℤ)
    (ms : List ℤ) (v : ℚ) :
    runMonths events r ty (m :: ms) v =
      runMonths events r ty ms (stepMonth events r ty m v) := rfl

theorem simulateFrom_zero (events : List SimEvent) (r : ℚ) (y : ℤ) (v : ℚ) :
    simulateFrom events r y 0 v = [] := rfl

theorem simulateFrom_succ (events : List SimEvent) (r : ℚ) (y : ℤ) (n : ℕ)
    (v : ℚ) :
    simulateFrom events r y (n + 1) v =
      (⟨y, round2 (simYear events r y v)⟩ : ProjectionPoint) ::
        simulateFrom events r (y + 1) n (simYear events r y v) := rfl

theorem stepMonth_nonneg (events : List SimEvent) (r : ℚ) (ty m : ℤ) (v : ℚ) :
    0 ≤ stepMonth events r ty m v :=
  le_max_left 0 _

theorem runMonths_nonneg (events : List SimEvent) (r : ℚ) (ty : ℤ)
    (ms : List ℤ) (v : ℚ) (hv : 0 ≤ v) :
    0 ≤ runMonths events r ty ms v := by
  induction ms generalizing v with
  | nil => exact hv
  | cons m ms ih =>
      rw [runMonths_cons]
      exact ih _ (stepMonth_nonneg events r ty m v)

theorem simYear_nonneg (events : List SimEvent) (r : ℚ) (ty : ℤ) (v : ℚ) :
    0 ≤ simYear events r ty v := by
  rw [simYear, monthIdx, runMonths_cons]
  exact runMonths_nonneg _ _ _ _ _ (stepMonth_nonneg events r ty 0 v)

theorem round2_nonneg (q : ℚ) (hq : 0 ≤ q) : 0 ≤ round2 q := by
  rw [round2]
  have h : (0 : ℤ) ≤ ⌊q * 100 + 1 / 2⌋ := by
    rw [Int.le_floor]
    push_cast
    linarith
  have h' : (0 : ℚ) ≤ ((⌊q * 100 + 1 / 2⌋ : ℤ) : ℚ) := by exact_mod_cast h
  linarith

theorem simulateFrom_mem_nonneg (events : List SimEvent) (r : ℚ) :
    ∀ (n : ℕ) (y : ℤ) (v : ℚ),
      ∀ pt ∈ simulateFrom events r y n v, 0 ≤ pt.projectedValue := by
  intro n
  induction n with
  | zero => intro y v pt hpt; simp [simulateFrom_zero] at hpt
  | succ k ih =>
      intro y v pt hpt
      rw [simulateFrom_succ] at hpt
      rcases List.mem_cons.mp hpt with h | h
      · subst h
        exact round2_nonneg _ (simYear_nonneg events r y v)
      · exact ih (y + 1) _ pt h

theorem simulateFrom_length (events : List SimEvent) (r : ℚ) :
    ∀ (n : ℕ) (y : ℤ) (v : ℚ), (simulateFrom events r y n v).length = n := by
  intro n
  induction n with
  | zero => intro y v; rfl
  | succ k ih => intro y v; rw [simulateFrom_succ]; simp [ih]

theorem simulateFrom_years (events : List SimEvent) (r : ℚ) :
    ∀ (n : ℕ) (y : ℤ) (v : ℚ),
      (simulateFrom events r y n v).map (fun pt => pt.year) =
        (List.range n).map (fun (i : ℕ) => y + (i : ℤ)) := by
  intro n
  induction n with
  | zero => intro y v; rfl
  | succ k ih =>
      intro y v
      rw [simulateFrom_succ, List.range_succ_eq_map]
      simp only [List.map_cons, List.map_map, ih, List.cons.injEq]
      refine ⟨by simp, ?_⟩
      apply List.map_congr_left
      intro i _
      simp only [Function.comp_apply]
      push_cast
      ring

/-- **C6.** For every input (with the non-negative integer horizon the
caller contract fixes) the curve has exactly `projectionYears + 1` points
and its years ascend chronologically from the current calendar year:
point `i` carries year `currentYear + i`. -/
theorem spec_c6_length_and_years (params : WealthProjectionParams)
    (currentYear : ℤ) :
    (simulateWealthCurve params currentYear).length =
        params.projectionYears + 1 ∧
      (simulateWealthCurve params currentYear).map (fun pt => pt.year) =
        (List.range (params.projectionYears + 1)).map
          (fun (i : ℕ) => currentYear + (i : ℤ)) := by
  constructor
  · exact simulateFrom_length _ _ _ _ _
  · exact simulateFrom_years _ _ _ _ _

/-- **C5.** Every projected value in the curve is non-negative when the
initial value is (the zero-floor clamp runs after every month, so in fact
every snapshot of any run is non-negative). -/
theorem spec_c5_zero_floor (params : WealthProjectionParams)
    (currentYear : ℤ) (hinit : 0 ≤ params.initialValue) :
    ∀ pt ∈ simulateWealthCurve params currentYear, 0 ≤ pt.projectedValue := by
  intro pt hpt
  exact simulateFrom_mem_nonneg _ _ _ _ _ pt hpt

/-- Witness for C5 at a concrete input: an initial value of `100000`, a 4%
rate and a one-time `EXPENSE` of `200000` twice the principal. -/
theorem spec_c5_zero_floor_witness :
    (0 : ℚ) ≤ 100000 ∧
      ∀ pt ∈ simulateWealthCurve
          ⟨100000, 4 / 100,
            [⟨.EXPENSE, 200000, .ONCE, ⟨2025, 0, 1⟩, none⟩], 1⟩ 2025,
        0 ≤ pt.projectedValue :=
  ⟨by norm_num,
    spec_c5_zero_floor
      ⟨100000, 4 / 100, [⟨.EXPENSE, 200000, .ONCE, ⟨2025, 0, 1⟩, none⟩], 1⟩
      2025 (by norm_num)⟩

/-! ### Closed form of an event-free run -/

theorem getEventsForMonth_nil (t : SimDate) : getEventsForMonth [] t = [] := rfl

theorem stepMonth_no_events (r : ℚ) (ty m : ℤ) (v : ℚ)
    (h : 0 ≤ v * (1 + r)) :
    stepMonth [] r ty m v = v * (1 + r) := by
  rw [stepMonth, getEventsForMonth_nil]
  exact max_eq_right h

theorem runMonths_no_events (r : ℚ) (ty : ℤ) (hr : 0 ≤ 1 + r) :
    ∀ (ms : List ℤ) (v : ℚ), 0 ≤ v →
      runMonths [] r ty ms v = v * (1 + r) ^ ms.length := by
  intro ms
  induction ms with
  | nil => intro v hv; simp [runMonths_nil]
  | cons m ms ih =>
      intro v hv
      rw [runMonths_cons, stepMonth_no_events r ty m v (mul_nonneg hv hr),
        ih _ (mul_nonneg hv hr)]
      rw [List.length_cons, pow_succ]
      ring

theorem simYear_no_events (r : ℚ) (ty : ℤ) (v : ℚ) (hv : 0 ≤ v)
    (hr : 0 ≤ 1 + r) :
    simYear [] r ty v = v * (1 + r) ^ 12 := by
  rw [simYear, runMonths_no_events r ty hr monthIdx v hv]
  rfl

/-- Evaluation rule for `round2` at a known floor. -/
theorem round2_eq (q : ℚ) (n : ℤ) (h1 : (n : ℚ) ≤ q * 100 + 1 / 2)
    (h2 : q * 100 + 1 / 2 < n + 1) :
    round2 q = (n : ℚ) / 100 := by
  rw [round2]
  congr 2
  rw [Int.floor_eq_iff]
  exact ⟨h1, by exact_mod_cast h2⟩

/-- **C1 (against the code).**  At the concrete input
`initialValue = 100000`, `interestRate = 0.12`, no events,
`projectionYears = 0`, the first point of the curve is the initial value
with twelve months of growth already applied — `112682.50`, not the
untouched `100000` that the claim (and the repository's own unit test,
`result[0].projectedValue == 100000`) requires. -/
theorem spec_c1_first_point_grown :
    (simulateWealthCurve ⟨100000, 12 / 100, [], 0⟩ 2025).head? =
        some ⟨2025, round2 (100000 * (1 + (12 / 100) / 12) ^ 12)⟩ ∧
      round2 (100000 * (1 + (12 / 100) / 12) ^ 12) = 11268250 / 100 ∧
      (11268250 / 100 : ℚ) ≠ 100000 := by
  refine ⟨?_, ?_, by norm_num⟩
  · rw [simulateWealthCurve]
    show (simulateFrom [] ((12 : ℚ) / 100 / 12) 2025 (0 + 1) 100000).head? = _
    rw [simulateFrom_succ, List.head?_cons]
    rw [simYear_no_events _ _ _ (by norm_num) (by norm_num)]
  · rw [round2_eq _ 11268250 (by norm_num) (by norm_num)]
    norm_num

/-- **C2 (against the code).**  At `initialValue = 100000`,
`interestRate = 0.12`, no events, `projectionYears = 1`, the point at index
`1` equals the initial value compounded for `24` months (`126973.46`), not
the `12 * 1`-month pure compounding `112682.50` the claim requires — the
off-by-one year of growth the claim rules out. -/
theorem spec_c2_point_off_by_one :
    (simulateWealthCurve ⟨100000, 12 / 100, [], 1⟩ 2025)[1]? =
        some ⟨2026, round2 (100000 * (1 + (12 / 100) / 12) ^ 24)⟩ ∧
      round2 (100000 * (1 + (12 / 100) / 12) ^ 24) = 12697346 / 100 ∧
      round2 (100000 * (1 + (12 / 100) / 12) ^ (12 * 1)) = 11268250 / 100 ∧
      (12697346 / 100 : ℚ) ≠ 11268250 / 100 := by
  refine ⟨?_, ?_, ?_, by norm_num⟩
  · rw [simulateWealthCurve]
    show (simulateFrom [] ((12 : ℚ) / 100 / 12) 2025 (1 + 1) 100000)[1]? = _
    rw [simulateFrom_succ, simulateFrom_succ]
    rw [simYear_no_events _ _ _ (by norm_num) (by norm_num)]
    rw [simYear_no_events _ _ _ (by positivity) (by norm_num)]
    have : (100000 : ℚ) * (1 + 12 / 100 / 12) ^ 12 * (1 + 12 / 100 / 12) ^ 12 =
        100000 * (1 + 12 / 100 / 12) ^ 24 := by ring
    rw [this]
    rfl
  · rw [round2_eq _ 12697346 (by norm_num) (by norm_num)]
    norm_num
  · rw [round2_eq _ 11268250 (by norm_num) (by norm_num)]
    norm_num

/-! ### The applicability resolver: ONCE and QUARTERLY -/

/-- **C3 (amended).**  For a `ONCE` event whose start/end bound checks pass,
the resolver fires exactly when the target month has the same calendar year
and month as the start date: within the dispatch itself the day-of-month is
indeed ignored. -/
theorem spec_c3_once_same_month (e : SimEvent) (t : SimDate)
    (hf : e.frequency = .ONCE) (hb : withinBounds e t = true) :
    (eventApplies e t = true ↔
      (e.startDate.year = t.year ∧ e.startDate.month = t.month)) := by
  rw [eventApplies, hb, hf]
  simp

/-- Witness for C3 (amended) at a `ONCE` event dated the first of its
month. -/
theorem spec_c3_once_same_month_witness :
    withinBounds ⟨.BONUS, 500, .ONCE, ⟨2024, 5, 1⟩, none⟩ ⟨2024, 5, 1⟩ = true ∧
      (eventApplies ⟨.BONUS, 500, .ONCE, ⟨2024, 5, 1⟩, none⟩ ⟨2024, 5, 1⟩ =
          true ↔
        ((⟨.BONUS, 500, .ONCE, ⟨2024, 5, 1⟩, none⟩ : SimEvent).startDate.year =
            (⟨2024, 5, 1⟩ : SimDate).year ∧
          (⟨.BONUS, 500, .ONCE, ⟨2024, 5, 1⟩, none⟩ :
              SimEvent).startDate.month =
            (⟨2024, 5, 1⟩ : SimDate).month)) :=
  ⟨by decide, spec_c3_once_same_month _ _ rfl (by decide)⟩

/-- **C3 (counterexample).**  The start-bound rejection is *not* decided at
year+month granularity: a `ONCE` event starting June 15, 2024 targets June
2024 (same calendar year and month, no end date), yet the resolver rejects
it, because line 63 compares full dates and June 15 is later than the
constructed target date June 1. -/
theorem spec_c3_counterexample :
    (⟨.BONUS, 500, .ONCE, ⟨2024, 5, 15⟩, none⟩ : SimEvent).frequency =
        .ONCE ∧
      (⟨.BONUS, 500, .ONCE, ⟨2024, 5, 15⟩, none⟩ : SimEvent).startDate.year =
        (⟨2024, 5, 1⟩ : SimDate).year ∧
      (⟨.BONUS, 500, .ONCE, ⟨2024, 5, 15⟩, none⟩ : SimEvent).startDate.month =
        (⟨2024, 5, 1⟩ : SimDate).month ∧
      eventApplies ⟨.BONUS, 500, .ONCE, ⟨2024, 5, 15⟩, none⟩ ⟨2024, 5, 1⟩ =
        false := by
  refine ⟨rfl, rfl, rfl, ?_⟩
  decide

/-- **C7.**  For a `QUARTERLY` event whose bound checks pass (on real
calendar dates, whose month index lies in `0..11`), the resolver fires
exactly when `monthsElapsed = (Δyear) * 12 + (Δmonth)` is divisible by 3 —
the cadence is anchored to the event's own start month. -/
theorem spec_c7_quarterly_anchor (e : SimEvent) (t : SimDate)
    (hf : e.frequency = .QUARTERLY) (hb : withinBounds e t = true)
    (hsm : 0 ≤ e.startDate.month ∧ e.startDate.month ≤ 11)
    (htm : 0 ≤ t.month ∧ t.month ≤ 11) :
    (eventApplies e t = true ↔
      getMonthsDifference e.startDate t % 3 = 0) := by
  have hs : dateLt t e.startDate = false := by
    have h1 := (Bool.and_eq_true _ _).mp hb |>.1
    cases h : dateLt t e.startDate
    · rfl
    · rw [h] at h1; simp at h1
  have hnot := of_decide_eq_false (by rw [dateLt] at hs; exact hs)
  push_neg at hnot
  have hnn : 0 ≤ getMonthsDifference e.startDate t := by
    rw [getMonthsDifference]
    rcases hnot with ⟨hy, hrest⟩
    omega
  rw [eventApplies, hb, hf]
  simp only [Bool.true_and, decide_eq_true_eq]
  rw [Int.tmod_eq_emod hnn (by norm_num)]

/-- Witness for C7: a quarterly event starting February 2024 fires in
August 2024 (six months later). -/
theorem spec_c7_quarterly_anchor_witness :
    withinBounds ⟨.INCOME, 10, .QUARTERLY, ⟨2024, 1, 1⟩, none⟩ ⟨2024, 7, 1⟩ =
        true ∧
      (0 ≤ (⟨.INCOME, 10, .QUARTERLY, ⟨2024, 1, 1⟩, none⟩ :
            SimEvent).startDate.month ∧
        (⟨.INCOME, 10, .QUARTERLY, ⟨2024, 1, 1⟩, none⟩ :
            SimEvent).startDate.month ≤ 11) ∧
      (0 ≤ (⟨2024, 7, 1⟩ : SimDate).month ∧
        (⟨2024, 7, 1⟩ : SimDate).month ≤ 11) ∧
      (eventApplies ⟨.INCOME, 10, .QUARTERLY, ⟨2024, 1, 1⟩, none⟩
          ⟨2024, 7, 1⟩ = true ↔
        getMonthsDifference
            (⟨.INCOME, 10, .QUARTERLY, ⟨2024, 1, 1⟩, none⟩ :
              SimEvent).startDate ⟨2024, 7, 1⟩ % 3 = 0) :=
  ⟨by decide, by decide, by decide,
    spec_c7_quarterly_anchor _ _ rfl (by decide) (by decide) (by decide)⟩

/-! ### Suggestion engine: the achieved-goal short-circuit -/

/-- **C8.**  Whenever `targetPatrimony - currentPatrimony ≤ 0` the suggestion
engine returns exactly the single CONGRATULATIONS suggestion with value 0
and period 0 — everything else is short-circuited. -/
theorem spec_c8_congratulations (fpow : ℚ → ℚ → JsNum)
    (currentPatrimony targetPatrimony timeHorizonYears
      currentMonthlyContribution : ℚ)
    (h : targetPatrimony - currentPatrimony ≤ 0) :
    generateAutoSuggestions fpow currentPatrimony targetPatrimony
        timeHorizonYears currentMonthlyContribution =
      [⟨.CONGRATULATIONS, some (.fin 0), some 0⟩] := by
  simp only [generateAutoSuggestions]
  rw [if_pos h]

/-- Witness for C8 at the specification's own example
`generateSuggestions(1000000, 800000, 10, 5000)`. -/
theorem spec_c8_congratulations_witness :
    (800000 : ℚ) - 1000000 ≤ 0 ∧
      generateAutoSuggestions nanPow 1000000 800000 10 5000 =
        [⟨.CONGRATULATIONS, some (.fin 0), some 0⟩] :=
  ⟨by norm_num,
    spec_c8_congratulations nanPow 1000000 800000 10 5000 (by norm_num)⟩

/-! ### Non-finite propagation in the analytics -/

theorem jdiv_fin_fin (a b : ℚ) (hb : b ≠ 0) :
    jdiv (.fin a) (.fin b) = .fin (a / b) := by
  simp [jdiv, hb]

theorem jdiv_fin_zero_pos (a : ℚ) (ha : 0 < a) :
    jdiv (.fin a) (.fin 0) = .inf := by
  simp [jdiv, ha]

theorem jpow_inf_fin_pos (fpow : ℚ → ℚ → JsNum) (e : ℚ) (he : 0 < e) :
    jpow fpow .inf (.fin e) = .inf := by
  rw [jpow]
  rw [if_neg (ne_of_gt he)]
  rw [if_pos he]

theorem jpow_fin_zero_exp (fpow : ℚ → ℚ → JsNum) (b : JsNum) :
    jpow fpow b (.fin 0) = .fin 1 := by
  cases b <;> rw [jpow] <;> rw [if_pos rfl]

theorem jsub_fin_fin (a b : ℚ) : jsub (.fin a) (.fin b) = .fin (a - b) := by
  simp [jsub, jadd, jneg, sub_eq_add_neg]

theorem jsub_inf_fin (b : ℚ) : jsub .inf (.fin b) = .inf := rfl

theorem jmul_inf_fin_pos (b : ℚ) (hb : 0 < b) :
    jmul .inf (.fin b) = .inf := by
  simp [jmul, hb]

theorem jmul_fin_fin (a b : ℚ) : jmul (.fin a) (.fin b) = .fin (a * b) := rfl

theorem jround_inf : jround .inf = .inf := rfl

theorem jdiv_inf_fin_nonneg (b : ℚ) (hb : 0 ≤ b) :
    jdiv .inf (.fin b) = .inf := by
  simp [jdiv, hb]

theorem jgt_inf_fin (b : ℚ) : jgt .inf (.fin b) = true := rfl

theorem jgt_fin_inf (a : ℚ) : jgt (.fin a) .inf = false := rfl

theorem jgt_fin_fin (a b : ℚ) : jgt (.fin a) (.fin b) = decide (b < a) := rfl

theorem round2_zero : round2 0 = 0 := by
  rw [round2_eq 0 0 (by norm_num) (by norm_num)]
  norm_num

/-- **C4 (counterexample).**  `calculatePortfolioMetrics` applied to the
non-empty curve `[(2024, 0), (2025, 100)]` with `initialValue = 0` reports a
`cagr` of `Infinity`, not the finite `0` the claim asserts: the CAGR
expression has no `initialValue == 0` guard (its only guard is
`totalYears > 0`), so `finalValue / initialValue` is `100 / 0 = Infinity`
and `Math.pow(Infinity, 1) - 1 = Infinity`. -/
theorem spec_c4_counterexample :
    (calculatePortfolioMetrics nanPow
          [⟨2024, 0⟩, ⟨2025, 100⟩] 0).map (fun m => m.cagr) = some .inf ∧
      (JsNum.inf ≠ .fin 0) := by
  refine ⟨?_, by decide⟩
  rw [calculatePortfolioMetrics]
  have hfp : finalProjected [(⟨2024, 0⟩ : ProjectionPoint), ⟨2025, 100⟩] =
      100 := rfl
  simp only [hfp, List.length_cons, List.length_nil]
  norm_num
  rw [jdiv_fin_zero_pos 100 (by norm_num)]
  rw [jpow_inf_fin_pos nanPow _ (by norm_num)]
  rw [jsub_inf_fin, jmul_inf_fin_pos _ (by norm_num), jround_inf,
    jdiv_inf_fin_nonneg _ (by norm_num)]

theorem jgt_any_inf (a : JsNum) : jgt a .inf = false := by
  cases a <;> rfl

theorem calcMetrics_gain_guard (fpow : ℚ → ℚ → JsNum)
    (data : List ProjectionPoint) (init : ℚ) (m : PortfolioMetrics)
    (heq : calculatePortfolioMetrics fpow data init = some m)
    (hinit : init ≤ 0) : m.totalGainPercent = 0 := by
  cases data with
  | nil => simp [calculatePortfolioMetrics] at heq
  | cons p rest =>
      rw [calculatePortfolioMetrics] at heq
      simp only [Option.some.injEq] at heq
      rw [← heq]
      simp only [if_neg (not_lt.mpr hinit), round2_zero]

theorem calcMetrics_cagr_unguarded (fpow : ℚ → ℚ → JsNum)
    (data : List ProjectionPoint) (init : ℚ) (m : PortfolioMetrics)
    (heq : calculatePortfolioMetrics fpow data init = some m)
    (h0 : init = 0) (hlen : 2 ≤ data.length)
    (hpos : 0 < finalProjected data) : m.cagr = .inf := by
  cases data with
  | nil => simp at hlen
  | cons p rest =>
      subst h0
      rw [calculatePortfolioMetrics] at heq
      simp only [Option.some.injEq] at heq
      rw [← heq]
      have hY : 0 < (p :: rest).length - 1 := by
        simp only [List.length_cons] at hlen ⊢
        omega
      simp only [if_pos hY]
      rw [jdiv_fin_zero_pos _ hpos]
      have hYq : (0 : ℚ) < 1 / (((p :: rest).length - 1 : ℕ) : ℚ) := by
        have : (0 : ℚ) < (((p :: rest).length - 1 : ℕ) : ℚ) := by
          exact_mod_cast hY
        positivity
      rw [jpow_inf_fin_pos _ _ hYq, jsub_inf_fin,
        jmul_inf_fin_pos _ (by norm_num), jround_inf,
        jdiv_inf_fin_nonneg _ (by norm_num)]

theorem suggestions_nonfinite_at_zero_horizon (fpow : ℚ → ℚ → JsNum)
    (c t m : ℚ) (h : 0 < t - c) :
    ((generateAutoSuggestions fpow c t 0 m).head?).map
        (fun s => s.suggestedValue) = some (some .inf) := by
  simp only [generateAutoSuggestions]
  rw [if_neg (not_le.mpr h)]
  simp only [zero_mul, jpow_fin_zero_exp, jsub_fin_fin, sub_self]
  rw [jdiv_fin_fin 0 _ (by norm_num), zero_div]
  rw [jdiv_fin_zero_pos _ h, jsub_inf_fin, jgt_inf_fin, jgt_any_inf]
  simp [jround_inf]

/-- **C4 (amended).**  The zero-guards that actually exist: (a)
`totalGainPercent` substitutes 0 whenever `initialValue ≤ 0`; (b) the CAGR
has *no* `initialValue` guard — with `initialValue = 0`, at least two curve
points and a positive final value it is `Infinity`; (c)
`generateAutoSuggestions` with a positive gap and `timeHorizonYears = 0`
divides the gap by a zero annuity factor and returns a suggestion whose
`suggestedValue` is non-finite. -/
theorem spec_c4_guards_incomplete :
    (∀ (fpow : ℚ → ℚ → JsNum) (data : List ProjectionPoint) (init : ℚ)
        (m : PortfolioMetrics),
        calculatePortfolioMetrics fpow data init = some m → init ≤ 0 →
          m.totalGainPercent = 0) ∧
      (∀ (fpow : ℚ → ℚ → JsNum) (data : List ProjectionPoint) (init : ℚ)
          (m : PortfolioMetrics),
          calculatePortfolioMetrics fpow data init = some m → init = 0 →
            2 ≤ data.length → 0 < finalProjected data → m.cagr = .inf) ∧
      (∀ (fpow : ℚ → ℚ → JsNum) (c t m : ℚ),
          0 < t - c →
            ((generateAutoSuggestions fpow c t 0 m).head?).map
                (fun s => s.suggestedValue) = some (some .inf)) :=
  ⟨fun fpow data init m heq hinit =>
      calcMetrics_gain_guard fpow data init m heq hinit,
    fun fpow data init m heq h0 hlen hpos =>
      calcMetrics_cagr_unguarded fpow data init m heq h0 hlen hpos,
    fun fpow c t m h => suggestions_nonfinite_at_zero_horizon fpow c t m h⟩

/-- Witness for C4 (amended) at concrete inputs: a one-point curve with
`initialValue = 0` has `totalGainPercent = 0`; the two-point curve
`[(2024, 0), (2025, 100)]` with `initialValue = 0` has an infinite CAGR; and
`generateAutoSuggestions(800000, 1000000, 0, 5000)` suggests a non-finite
value. -/
theorem spec_c4_guards_incomplete_witness :
    ((calculatePortfolioMetrics nanPow [⟨2024, 50⟩] 0).map
        (fun m => m.totalGainPercent) = some 0) ∧
      ((calculatePortfolioMetrics nanPow [⟨2024, 0⟩, ⟨2025, 100⟩] 0).map
        (fun m => m.cagr) = some JsNum.inf) ∧
      ((generateAutoSuggestions nanPow 800000 1000000 0 5000).head?).map
        (fun s => s.suggestedValue) = some (some JsNum.inf) := by
  refine ⟨?_, ?_, ?_⟩
  · cases hEq : calculatePortfolioMetrics nanPow [⟨2024, 50⟩] 0 with
    | none => simp [calculatePortfolioMetrics] at hEq
    | some m =>
        simp only [Option.map_some']
        rw [spec_c4_guards_incomplete.1 nanPow _ 0 m hEq (le_refl 0)]
  · cases hEq : calculatePortfolioMetrics nanPow [⟨2024, 0⟩, ⟨2025, 100⟩] 0 with
    | none => simp [calculatePortfolioMetrics] at hEq
    | some m =>
        simp only [Option.map_some']
        rw [spec_c4_guards_incomplete.2.1 nanPow _ 0 m hEq rfl (by norm_num)
          (by norm_num [finalProjected, List.getLast?])]
  · exact spec_c4_guards_incomplete.2.2 nanPow 800000 1000000 5000 (by norm_num)

theorem jpow_fin_natCast (fpow : ℚ → ℚ → JsNum) (a : ℚ) (n : ℕ)
    (hn : 0 < n) : jpow fpow (.fin a) (.fin (n : ℚ)) = .fin (a ^ n) := by
  rw [jpow]
  rw [if_neg (by exact_mod_cast hn.ne')]
  rw [if_pos (by simp [Rat.den_natCast])]
  rw [if_pos (by simp only [Rat.num_natCast]; exact_mod_cast hn)]
  simp only [Rat.num_natCast, Int.toNat_natCast]

theorem annuityFactor_pos (n : ℕ) (hn : 1 ≤ n) : 0 < annuityFactor n := by
  rw [annuityFactor]
  have hb := one_add_mul_le_pow (by norm_num : (-2 : ℚ) ≤ 1 / 300) n
  have hn' : (1 : ℚ) ≤ (n : ℚ) := by exact_mod_cast hn
  have : (1 : ℚ) + 4 / 100 / 12 = 1 + 1 / 300 := by norm_num
  rw [this]
  have hnum : (0 : ℚ) < (1 + 1 / 300) ^ n - 1 := by nlinarith
  positivity

/-- **C10.**  When the gap is positive, the current contribution already
covers the required monthly contribution
`gap / annuityFactor(12 * timeHorizonYears)` and the gap is at most half the
target, the suggestion engine returns the empty sequence (for any positive
integer horizon — for horizon 0 the required contribution is infinite, so
the precondition is unsatisfiable). -/
theorem spec_c10_empty_output (fpow : ℚ → ℚ → JsNum) (c t m : ℚ) (y : ℕ)
    (hy : 1 ≤ y) (hgap : 0 < t - c)
    (hm : (t - c) / annuityFactor (y * 12) ≤ m)
    (hhalf : t - c ≤ t / 2) :
    generateAutoSuggestions fpow c t (y : ℚ) m = [] := by
  have ht : 0 < t := by linarith
  simp only [generateAutoSuggestions]
  rw [if_neg (not_le.mpr hgap)]
  have hcast : (y : ℚ) * 12 = ((y * 12 : ℕ) : ℚ) := by push_cast; ring
  rw [hcast, jpow_fin_natCast _ _ _ (by omega), jsub_fin_fin,
    jdiv_fin_fin _ _ (by norm_num)]
  have hFdef : ((1 + 4 / 100 / 12) ^ (y * 12) - 1) / (4 / 100 / 12) =
      annuityFactor (y * 12) := rfl
  rw [hFdef]
  have hF : 0 < annuityFactor (y * 12) := annuityFactor_pos _ (by omega)
  rw [jdiv_fin_fin _ _ (ne_of_gt hF), jsub_fin_fin, jgt_fin_fin]
  have hc1 : ¬ (0 < (t - c) / annuityFactor (y * 12) - m) := by linarith
  simp only [decide_eq_true_eq, hc1, if_false]
  rw [jdiv_fin_fin _ _ (ne_of_gt ht), jmul_fin_fin, jgt_fin_fin]
  have hc2 : ¬ ((50 : ℚ) < (t - c) / t * 100) := by
    have h1 : (t - c) / t ≤ (t / 2) / t :=
      (div_le_div_iff_of_pos_right ht).mpr hhalf
    have h2 : (t / 2) / t = 1 / 2 := by
      field_simp
      ring
    rw [h2] at h1
    nlinarith
  simp only [decide_eq_true_eq, hc2, if_false]
  rfl

/-- Witness for C10: target 1000001, current patrimony 1000000 (gap 1 ≤
half the target), horizon 1 year, current contribution 1 — which exceeds
`1 / annuityFactor 12 ≈ 0.0817`. -/
theorem spec_c10_empty_output_witness :
    (1 ≤ 1) ∧ ((0 : ℚ) < 1000001 - 1000000) ∧
      ((1000001 : ℚ) - 1000000) / annuityFactor (1 * 12) ≤ 1 ∧
      ((1000001 : ℚ) - 1000000) ≤ 1000001 / 2 ∧
      generateAutoSuggestions nanPow 1000000 1000001 ((1 : ℕ) : ℚ) 1 = [] := by
  have hm : ((1000001 : ℚ) - 1000000) / annuityFactor (1 * 12) ≤ 1 := by
    have h1 : (1 : ℚ) ≤ annuityFactor (1 * 12) := by
      rw [annuityFactor]
      norm_num
    have h2 : (0 : ℚ) < annuityFactor (1 * 12) := by linarith
    rw [div_le_one h2]
    linarith
  exact ⟨le_refl 1, by norm_num, hm, by norm_num,
    spec_c10_empty_output nanPow 1000000 1000001 1 1 (le_refl 1) (by norm_num)
      hm (by norm_num)⟩

/-! ### Effect of a monthly income event on the whole run -/

theorem applyEvent_income (v A : ℚ) (f : Frequency) (s : SimDate)
    (d : Option SimDate) :
    applyEvent v ⟨.INCOME, A, f, s, d⟩ = v + A := rfl

theorem monthly_income_applies (A : ℚ) (cy ty m : ℤ) (hy : cy ≤ ty)
    (hm : 0 ≤ m) :
    getEventsForMonth [⟨.INCOME, A, .MONTHLY, ⟨cy, 0, 1⟩, none⟩]
        ⟨ty, m, 1⟩ =
      [⟨.INCOME, A, .MONTHLY, ⟨cy, 0, 1⟩, none⟩] := by
  have hlt : dateLt ⟨ty, m, 1⟩ ⟨cy, 0, 1⟩ = false := by
    rw [dateLt]
    simp only [decide_eq_false_iff_not]
    push_neg
    constructor
    · omega
    · intro h
      constructor
      · omega
      · intro h2
        omega
  simp [getEventsForMonth, eventApplies, withinBounds, hlt, List.filter]

theorem stepMonth_monthly_income (A r : ℚ) (cy ty m : ℤ) (v : ℚ)
    (hy : cy ≤ ty) (hm : 0 ≤ m) (hv : 0 ≤ v) (hr : 0 ≤ r) (hA : 0 ≤ A) :
    stepMonth [⟨.INCOME, A, .MONTHLY, ⟨cy, 0, 1⟩, none⟩] r ty m v =
      v * (1 + r) + A := by
  rw [stepMonth, monthly_income_applies A cy ty m hy hm]
  rw [List.foldl_cons, List.foldl_nil, applyEvent_income]
  exact max_eq_right (by nlinarith)

theorem runMonths_monthly_income (A r : ℚ) (cy ty : ℤ) (hy : cy ≤ ty)
    (hr : 0 ≤ r) (hA : 0 ≤ A) :
    ∀ (ms : List ℤ), (∀ x ∈ ms, 0 ≤ x) → ∀ (v : ℚ), 0 ≤ v →
      runMonths [⟨.INCOME, A, .MONTHLY, ⟨cy, 0, 1⟩, none⟩] r ty ms v =
        v * (1 + r) ^ ms.length +
          A * ∑ j ∈ Finset.range ms.length, (1 + r) ^ j := by
  intro ms
  induction ms with
  | nil => intro _ v hv; simp [runMonths_nil]
  | cons m ms ih =>
      intro hms v hv
      have hm : 0 ≤ m := hms m (List.mem_cons_self m ms)
      have hv' : 0 ≤ v * (1 + r) + A := by nlinarith
      rw [runMonths_cons, stepMonth_monthly_income A r cy ty m v hy hm hv hr hA,
        ih (fun x hx => hms x (List.mem_cons_of_mem m hx)) _ hv']
      rw [List.length_cons]
      rw [Finset.sum_range_succ]
      ring

theorem simYear_monthly_income (A r : ℚ) (cy ty : ℤ) (v : ℚ) (hy : cy ≤ ty)
    (hr : 0 ≤ r) (hA : 0 ≤ A) (hv : 0 ≤ v) :
    simYear [⟨.INCOME, A, .MONTHLY, ⟨cy, 0, 1⟩, none⟩] r ty v =
      v * (1 + r) ^ 12 + A * ∑ j ∈ Finset.range 12, (1 + r) ^ j := by
  rw [simYear,
    runMonths_monthly_income A r cy ty hy hr hA monthIdx (by decide) v hv]
  rfl

theorem finalProjected_cons (p : ProjectionPoint) (l : List ProjectionPoint)
    (hl : l ≠ []) : finalProjected (p :: l) = finalProjected l := by
  cases l with
  | nil => exact absurd rfl hl
  | cons q l' => rw [finalProjected, finalProjected, List.getLast?_cons_cons]

theorem simulateFrom_ne_nil (events : List SimEvent) (r : ℚ) (y : ℤ) (n : ℕ)
    (v : ℚ) : simulateFrom events r y (n + 1) v ≠ [] := by
  rw [simulateFrom_succ]
  exact List.cons_ne_nil _ _

theorem finalProjected_simulateFrom (events : List SimEvent) (r : ℚ) :
    ∀ (n : ℕ) (y : ℤ) (v : ℚ),
      finalProjected (simulateFrom events r y (n + 1) v) =
        round2 (valueAfterYears events r y (n + 1) v) := by
  intro n
  induction n with
  | zero =>
      intro y v
      rw [simulateFrom_succ, simulateFrom_zero, valueAfterYears,
        valueAfterYears]
      rfl
  | succ k ih =>
      intro y v
      rw [simulateFrom_succ,
        finalProjected_cons _ _ (simulateFrom_ne_nil events r (y + 1) k _),
        ih (y + 1) _]
      rfl

theorem valueAfterYears_no_events (r : ℚ) (hr : 0 ≤ 1 + r) :
    ∀ (n : ℕ) (y : ℤ) (v : ℚ), 0 ≤ v →
      valueAfterYears [] r y n v = v * ((1 + r) ^ 12) ^ n := by
  intro n
  induction n with
  | zero => intro y v hv; rw [valueAfterYears]; ring
  | succ k ih =>
      intro y v hv
      rw [valueAfterYears, simYear_no_events r y v hv hr,
        ih (y + 1) _ (by positivity)]
      ring

theorem valueAfterYears_monthly_income (A r : ℚ) (cy : ℤ) (hr : 0 ≤ r)
    (hA : 0 ≤ A) :
    ∀ (n : ℕ) (y : ℤ) (v : ℚ), cy ≤ y → 0 ≤ v →
      valueAfterYears [⟨.INCOME, A, .MONTHLY, ⟨cy, 0, 1⟩, none⟩] r y n v =
        v * ((1 + r) ^ 12) ^ n +
          A * (∑ j ∈ Finset.range 12, (1 + r) ^ j) *
            ∑ i ∈ Finset.range n, ((1 + r) ^ 12) ^ i := by
  intro n
  induction n with
  | zero => intro y v hy hv; rw [valueAfterYears]; simp
  | succ k ih =>
      intro y v hy hv
      have h1r : (0 : ℚ) ≤ 1 + r := by linarith
      have hG : 0 ≤ ∑ j ∈ Finset.range 12, (1 + r) ^ j :=
        Finset.sum_nonneg fun j _ => pow_nonneg h1r j
      have hv' : 0 ≤ v * (1 + r) ^ 12 +
          A * ∑ j ∈ Finset.range 12, (1 + r) ^ j :=
        add_nonneg (mul_nonneg hv (pow_nonneg h1r 12)) (mul_nonneg hA hG)
      rw [valueAfterYears, simYear_monthly_income A r cy y v hy hr hA hv,
        ih (y + 1) _ (by omega) hv']
      rw [Finset.sum_range_succ (fun i => ((1 + r) ^ 12) ^ i) k]
      ring

/-- The two yearly snapshots are rounded independently, which can eat at
most one cent of a difference. -/
theorem round2_gap_gt (a b : ℚ) :
    (a - b) - 1 / 100 < round2 a - round2 b := by
  have h1 : a * 100 + 1 / 2 - 1 < ((⌊a * 100 + 1 / 2⌋ : ℤ) : ℚ) :=
    Int.sub_one_lt_floor _
  have h2 : ((⌊b * 100 + 1 / 2⌋ : ℤ) : ℚ) ≤ b * 100 + 1 / 2 :=
    Int.floor_le _
  rw [round2, round2]
  linarith

/-- Bernoulli bound on the one-year geometric sum: each of the 12 monthly
contributions of one year compounds, so the sum dominates `12 + 66 ρ`. -/
theorem geom12_lower (ρ : ℚ) (h : 0 ≤ ρ) :
    12 + 66 * ρ ≤ ∑ j ∈ Finset.range 12, (1 + ρ) ^ j := by
  have hterm : ∀ j ∈ Finset.range 12, 1 + (j : ℚ) * ρ ≤ (1 + ρ) ^ j :=
    fun j _ => one_add_mul_le_pow (by linarith) j
  have hsum := Finset.sum_le_sum hterm
  have hval : ∑ j ∈ Finset.range 12, (1 + (j : ℚ) * ρ) = 12 + 66 * ρ := by
    simp [Finset.sum_range_succ]
    ring
  linarith [hval ▸ hsum]

/-- **C9 (amended).**  Adding a single MONTHLY INCOME event of amount `A`
applying from the first simulated month onward to an input with no other
events, a positive interest rate and `A * rate ≥ 1/550` (so that the
compounding gain exceeds the one-cent snapshot rounding granularity)
strictly increases the final projected value by more than `12 * A`. -/
theorem spec_c9_income_compounds (init A r : ℚ) (Y : ℕ) (cy : ℤ)
    (hinit : 0 ≤ init) (hr : 0 < r) (hAr : 1 / 550 ≤ A * r) :
    finalProjected (simulateWealthCurve
        ⟨init, r, [⟨.INCOME, A, .MONTHLY, ⟨cy, 0, 1⟩, none⟩], Y⟩ cy) >
      finalProjected (simulateWealthCurve ⟨init, r, [], Y⟩ cy) + 12 * A := by
  have hA : 0 < A := by nlinarith
  show finalProjected (simulateFrom [⟨.INCOME, A, .MONTHLY, ⟨cy, 0, 1⟩, none⟩]
      (r / 12) cy (Y + 1) init) >
    finalProjected (simulateFrom [] (r / 12) cy (Y + 1) init) + 12 * A
  rw [finalProjected_simulateFrom, finalProjected_simulateFrom]
  rw [valueAfterYears_monthly_income A (r / 12) cy (by linarith) hA.le (Y + 1)
    cy init (le_refl cy) hinit]
  rw [valueAfterYears_no_events (r / 12) (by linarith) (Y + 1) cy init hinit]
  set B : ℚ := (1 + r / 12) ^ 12 with hBdef
  set G : ℚ := ∑ j ∈ Finset.range 12, (1 + r / 12) ^ j with hGdef
  set S : ℚ := ∑ i ∈ Finset.range (Y + 1), B ^ i with hSdef
  have hgap := round2_gap_gt (init * B ^ (Y + 1) + A * G * S)
    (init * B ^ (Y + 1))
  have hB1 : (1 : ℚ) ≤ B := one_le_pow₀ (by linarith)
  have hBnn : (0 : ℚ) ≤ B := by linarith
  have hS : (1 : ℚ) ≤ S := by
    have h0 : B ^ 0 ≤ S :=
      Finset.single_le_sum (f := fun i => B ^ i)
        (fun i _ => pow_nonneg hBnn i) (Finset.mem_range.mpr (Nat.succ_pos Y))
    simpa using h0
  have hG : 12 + 66 * (r / 12) ≤ G := geom12_lower _ (by linarith)
  have hGpos : (0 : ℚ) < G := by linarith
  have k1 : A * G ≤ A * G * S := by nlinarith [mul_pos hA hGpos]
  have k2 : A * (12 + 66 * (r / 12)) ≤ A * G :=
    mul_le_mul_of_nonneg_left hG hA.le
  have k3 : 12 * A + 1 / 100 ≤ A * (12 + 66 * (r / 12)) := by
    have hexp : A * (12 + 66 * (r / 12)) = 12 * A + (11 / 2) * (A * r) := by
      ring
    rw [hexp]
    linarith
  linarith

/-- Witness for C9 (amended): the repository test's own numbers — principal
`100000`, 4% rate, a monthly income of `5000`. -/
theorem spec_c9_income_compounds_witness :
    (0 : ℚ) ≤ 100000 ∧ (0 : ℚ) < 4 / 100 ∧
      (1 / 550 : ℚ) ≤ 5000 * (4 / 100) ∧
      finalProjected (simulateWealthCurve
          ⟨100000, 4 / 100,
            [⟨.INCOME, 5000, .MONTHLY, ⟨2025, 0, 1⟩, none⟩], 1⟩ 2025) >
        finalProjected (simulateWealthCurve ⟨100000, 4 / 100, [], 1⟩ 2025) +
          12 * 5000 :=
  ⟨by norm_num, by norm_num, by norm_num,
    spec_c9_income_compounds 100000 5000 (4 / 100) 1 2025 (by norm_num)
      (by norm_num) (by norm_num)⟩

theorem applyEvent_expense (v A : ℚ) (f : Frequency) (s : SimDate)
    (d : Option SimDate) :
    applyEvent v ⟨.EXPENSE, A, f, s, d⟩ = v - A := rfl

theorem dateLt_month_start_false (cy ty m : ℤ) (hy : cy ≤ ty) (hm : 0 ≤ m) :
    dateLt ⟨ty, m, 1⟩ ⟨cy, 0, 1⟩ = false := by
  rw [dateLt]
  simp only [decide_eq_false_iff_not]
  omega

theorem monthly_applies (et : EventType) (val : ℚ) (cy ty m : ℤ)
    (hy : cy ≤ ty) (hm : 0 ≤ m) :
    eventApplies ⟨et, val, .MONTHLY, ⟨cy, 0, 1⟩, none⟩ ⟨ty, m, 1⟩ = true := by
  rw [eventApplies, withinBounds]
  rw [dateLt_month_start_false cy ty m hy hm]
  rfl

theorem stepMonth_income_then_expense (r : ℚ) (v : ℚ) (mi : ℤ)
    (hm : 0 ≤ mi) (hv : 0 ≤ v) (hv' : v ≤ 1000) (hr : r = 4 / 100 / 12) :
    stepMonth
        [⟨.INCOME, 100, .MONTHLY, ⟨2025, 0, 1⟩, none⟩,
          ⟨.EXPENSE, 1000000000, .MONTHLY, ⟨2025, 0, 1⟩, none⟩]
        r 2025 mi v = 0 := by
  subst hr
  rw [stepMonth]
  have hfilter : getEventsForMonth
      [⟨.INCOME, 100, .MONTHLY, ⟨2025, 0, 1⟩, none⟩,
        ⟨.EXPENSE, 1000000000, .MONTHLY, ⟨2025, 0, 1⟩, none⟩]
      ⟨2025, mi, 1⟩ =
      [⟨.INCOME, 100, .MONTHLY, ⟨2025, 0, 1⟩, none⟩,
        ⟨.EXPENSE, 1000000000, .MONTHLY, ⟨2025, 0, 1⟩, none⟩] := by
    simp [getEventsForMonth, List.filter,
      monthly_applies .INCOME 100 2025 2025 mi (le_refl 2025) hm,
      monthly_applies .EXPENSE 1000000000 2025 2025 mi (le_refl 2025) hm]
  rw [hfilter, List.foldl_cons, List.foldl_cons, List.foldl_nil,
    applyEvent_income, applyEvent_expense]
  exact max_eq_left (by nlinarith)

theorem stepMonth_expense_only (r : ℚ) (v : ℚ) (mi : ℤ)
    (hm : 0 ≤ mi) (hv : 0 ≤ v) (hv' : v ≤ 1000) (hr : r = 4 / 100 / 12) :
    stepMonth [⟨.EXPENSE, 1000000000, .MONTHLY, ⟨2025, 0, 1⟩, none⟩]
        r 2025 mi v = 0 := by
  subst hr
  rw [stepMonth]
  have hfilter : getEventsForMonth
      [⟨.EXPENSE, 1000000000, .MONTHLY, ⟨2025, 0, 1⟩, none⟩]
      ⟨2025, mi, 1⟩ =
      [⟨.EXPENSE, 1000000000, .MONTHLY, ⟨2025, 0, 1⟩, none⟩] := by
    simp [getEventsForMonth, List.filter,
      monthly_applies .EXPENSE 1000000000 2025 2025 mi (le_refl 2025) hm]
  rw [hfilter, List.foldl_cons, List.foldl_nil, applyEvent_expense]
  exact max_eq_left (by nlinarith)

theorem simYear_income_then_expense_zero (v : ℚ) (hv : 0 ≤ v)
    (hv' : v ≤ 1000) :
    simYear
        [⟨.INCOME, 100, .MONTHLY, ⟨2025, 0, 1⟩, none⟩,
          ⟨.EXPENSE, 1000000000, .MONTHLY, ⟨2025, 0, 1⟩, none⟩]
        (4 / 100 / 12) 2025 v = 0 := by
  rw [simYear, monthIdx]
  rw [runMonths_cons, stepMonth_income_then_expense _ v 0 (by norm_num) hv
    hv' rfl]
  rw [runMonths_cons, stepMonth_income_then_expense _ 0 1 (by norm_num)
    (le_refl 0) (by norm_num) rfl]
  rw [runMonths_cons, stepMonth_income_then_expense _ 0 2 (by norm_num)
    (le_refl 0) (by norm_num) rfl]
  rw [runMonths_cons, stepMonth_income_then_expense _ 0 3 (by norm_num)
    (le_refl 0) (by norm_num) rfl]
  rw [runMonths_cons, stepMonth_income_then_expense _ 0 4 (by norm_num)
    (le_refl 0) (by norm_num) rfl]
  rw [runMonths_cons, stepMonth_income_then_expense _ 0 5 (by norm_num)
    (le_refl 0) (by norm_num) rfl]
  rw [runMonths_cons, stepMonth_income_then_expense _ 0 6 (by norm_num)
    (le_refl 0) (by norm_num) rfl]
  rw [runMonths_cons, stepMonth_income_then_expense _ 0 7 (by norm_num)
    (le_refl 0) (by norm_num) rfl]
  rw [runMonths_cons, stepMonth_income_then_expense _ 0 8 (by norm_num)
    (le_refl 0) (by norm_num) rfl]
  rw [runMonths_cons, stepMonth_income_then_expense _ 0 9 (by norm_num)
    (le_refl 0) (by norm_num) rfl]
  rw [runMonths_cons, stepMonth_income_then_expense _ 0 10 (by norm_num)
    (le_refl 0) (by norm_num) rfl]
  rw [runMonths_cons, stepMonth_income_then_expense _ 0 11 (by norm_num)
    (le_refl 0) (by norm_num) rfl]
  rw [runMonths_nil]

theorem simYear_expense_only_zero (v : ℚ) (hv : 0 ≤ v) (hv' : v ≤ 1000) :
    simYear [⟨.EXPENSE, 1000000000, .MONTHLY, ⟨2025, 0, 1⟩, none⟩]
        (4 / 100 / 12) 2025 v = 0 := by
  rw [simYear, monthIdx]
  rw [runMonths_cons, stepMonth_expense_only _ v 0 (by norm_num) hv hv' rfl]
  rw [runMonths_cons, stepMonth_expense_only _ 0 1 (by norm_num) (le_refl 0)
    (by norm_num) rfl]
  rw [runMonths_cons, stepMonth_expense_only _ 0 2 (by norm_num) (le_refl 0)
    (by norm_num) rfl]
  rw [runMonths_cons, stepMonth_expense_only _ 0 3 (by norm_num) (le_refl 0)
    (by norm_num) rfl]
  rw [runMonths_cons, stepMonth_expense_only _ 0 4 (by norm_num) (le_refl 0)
    (by norm_num) rfl]
  rw [runMonths_cons, stepMonth_expense_only _ 0 5 (by norm_num) (le_refl 0)
    (by norm_num) rfl]
  rw [runMonths_cons, stepMonth_expense_only _ 0 6 (by norm_num) (le_refl 0)
    (by norm_num) rfl]
  rw [runMonths_cons, stepMonth_expense_only _ 0 7 (by norm_num) (le_refl 0)
    (by norm_num) rfl]
  rw [runMonths_cons, stepMonth_expense_only _ 0 8 (by norm_num) (le_refl 0)
    (by norm_num) rfl]
  rw [runMonths_cons, stepMonth_expense_only _ 0 9 (by norm_num) (le_refl 0)
    (by norm_num) rfl]
  rw [runMonths_cons, stepMonth_expense_only _ 0 10 (by norm_num) (le_refl 0)
    (by norm_num) rfl]
  rw [runMonths_cons, stepMonth_expense_only _ 0 11 (by norm_num) (le_refl 0)
    (by norm_num) rfl]
  rw [runMonths_nil]

/-- **C9 (counterexample).**  The claim quantifies over *every* input; on an
input that already contains a monthly expense so large that the zero-floor
clamp fires every month, adding a MONTHLY INCOME event of `A = 100` changes
nothing: both runs end at `0`, which does not exceed the no-event final
value by more than `12 * A = 1200`. -/
theorem spec_c9_counterexample :
    finalProjected (simulateWealthCurve
          ⟨1000, 4 / 100,
            [⟨.INCOME, 100, .MONTHLY, ⟨2025, 0, 1⟩, none⟩,
              ⟨.EXPENSE, 1000000000, .MONTHLY, ⟨2025, 0, 1⟩, none⟩], 0⟩
          2025) = 0 ∧
      finalProjected (simulateWealthCurve
          ⟨1000, 4 / 100,
            [⟨.EXPENSE, 1000000000, .MONTHLY, ⟨2025, 0, 1⟩, none⟩], 0⟩
          2025) = 0 ∧
      ¬ ((0 : ℚ) > 0 + 12 * 100) := by
  refine ⟨?_, ?_, by norm_num⟩
  · show finalProjected (simulateFrom
        [⟨.INCOME, 100, .MONTHLY, ⟨2025, 0, 1⟩, none⟩,
          ⟨.EXPENSE, 1000000000, .MONTHLY, ⟨2025, 0, 1⟩, none⟩]
        (4 / 100 / 12) 2025 (0 + 1) 1000) = 0
    rw [finalProjected_simulateFrom, valueAfterYears, valueAfterYears,
      simYear_income_then_expense_zero 1000 (by norm_num) (le_refl 1000),
      round2_zero]
  · show finalProjected (simulateFrom
        [⟨.EXPENSE, 1000000000, .MONTHLY, ⟨2025, 0, 1⟩, none⟩]
        (4 / 100 / 12) 2025 (0 + 1) 1000) = 0
    rw [finalProjected_simulateFrom, valueAfterYears, valueAfterYears,
      simYear_expense_only_zero 1000 (by norm_num) (le_refl 1000),
      round2_zero]
